import Mathlib

/-!
# Verification of the multi-agent task-processing system

A shallow embedding, in Lean 4, of the Python multi-agent system
(`models.py`, `agents/base_agent.py`, `agents/planner_agent.py`,
`agents/execution_agent.py`, `agents/verification_agent.py`,
`multi_agent_system.py`), together with theorems settling the frozen
claims about it.

Modelling conventions:
* Python `float` values (scores, rates, durations) are modelled as `ℚ`.
  All arithmetic the claims exercise is exact on the values involved.
* `datetime` timestamps and generated UUIDs are opaque: constructors that
  draw them in the source (`datetime.now()`, `uuid.uuid4()`) take them from
  an explicit `Env` record instead.
* Wall-clock measurement (`time.time()` deltas) is abstracted: measured
  durations enter as parameters.
* The simulated work of `ExecutionAgent._execute_*` (sleeps and random
  content) is abstracted into a work oracle `SubTask → Option Output`:
  `some o` models a strategy call returning payload `o`, `none` models a
  raised exception (the `except` branch of `execute_subtask`).
* Python's unbounded `while` loops are embedded with explicit fuel; an
  `ExecExit`/recursion flag records whether the loop exited on its own
  (loop condition false, or `break`) or the fuel ran out (which models a
  non-terminating Python loop prefix).
-/

namespace MAS

/-! ## String helpers

`strLower` models Python `str.lower()` on the ASCII fragment (all keyword
tests in the source use lowercase needles).  `strMentions hay needle`
models Python's substring test `needle in hay`.  `countWords` models
`len(s.split())`: maximal whitespace-separated runs. -/

def charLower (c : Char) : Char :=
  if 'A' ≤ c ∧ c ≤ 'Z' then Char.ofNat (c.toNat + 32) else c

def strLower (s : String) : String := ⟨s.data.map charLower⟩

def startsWithChars : List Char → List Char → Bool
  | [], _ => true
  | _ :: _, [] => false
  | a :: as, b :: bs => a == b && startsWithChars as bs

def containsChars (needle : List Char) : List Char → Bool
  | [] => needle.isEmpty
  | c :: rest => startsWithChars needle (c :: rest) || containsChars needle rest

def strMentions (hay needle : String) : Bool := containsChars needle.data hay.data

def countWordsAux : List Char → Bool → Nat
  | [], inWord => cond inWord 1 0
  | c :: rest, inWord =>
    if c.isWhitespace then (cond inWord 1 0) + countWordsAux rest false
    else countWordsAux rest true

def countWords (s : String) : Nat := countWordsAux s.data false

/-! ## Data model (`models.py`) -/

inductive TaskStatus where
  | pending
  | in_progress
  | completed
  | failed
  | needs_replanning
deriving DecidableEq

inductive TaskPriority where
  | low
  | medium
  | high
  | critical
deriving DecidableEq

structure Task where
  id : String
  title : String
  description : String
  priority : TaskPriority
  status : TaskStatus
  created_at : Int
  updated_at : Int
  requirements : List String
  expected_output : String
deriving DecidableEq

structure SubTask where
  id : String
  parent_task_id : String
  title : String
  description : String
  order : Int
  status : TaskStatus
  estimated_time : Int
  dependencies : List String
deriving DecidableEq

structure Plan where
  id : String
  task_id : String
  subtasks : List SubTask
  estimated_total_time : Int
  created_at : Int
  agent_id : String
deriving DecidableEq

/-- The structured output payloads produced by `ExecutionAgent._execute_*`
and consumed by `VerificationAgent._verify_*`.  Each variant carries
exactly the fields the corresponding `_verify_*` rule reads; list-valued
fields of which only the length (or emptiness) is consulted are stored as
their length.  `other` models a non-empty dict whose `"type"` tag is not in
`verification_criteria`; `emptyDict` models a falsy `{}` payload. -/
inductive Output where
  | analysis (requirements_identified stakeholders constraints risks : Nat)
  | design (architecture_pattern : Option String) (components interfaces : Nat)
  | implementation (files_created : Nat) (lines_of_code : Int) (code_quality_score : ℚ)
  | testing (tests_executed tests_passed : Int) (coverage_percentage : ℚ) (bugs_found : Int)
  | documentation (documents_created : Nat) (pages_written : Int) (sections : List String)
  | setup (environment_configured : Bool) (tools_installed config_files : Nat)
  | integration (modules_integrated : Nat) (data_flow_verified : Bool)
      (integration_tests_passed : Int)
  | optimization (optimizations_applied : Nat)
      (performance_improvements : List (String × String))
  | other (typeName : String)
  | emptyDict
deriving DecidableEq

structure ExecutionResult where
  id : String
  task_id : String
  subtask_id : Option String
  success : Bool
  output : Option Output
  error_message : Option String
  execution_time : Int
  timestamp : Int
deriving DecidableEq

structure VerificationResult where
  id : String
  task_id : String
  passed : Bool
  quality_score : ℚ
  accuracy_score : ℚ
  issues_found : List String
  recommendations : List String
  timestamp : Int
deriving DecidableEq

/-- Environment record supplying the values the source draws from
`uuid.uuid4()` / `datetime.now()` / `self.id`. -/
structure Env where
  freshId : String
  now : Int
  agentId : String

/-! ## Planner agent (`agents/planner_agent.py`) -/

/-- `PlannerAgent._analyze_complexity`: a counter incremented by five
independent checks, then thresholded at 3 and 1. -/
def analyzeComplexity (task : Task) : String :=
  let c0 : Nat := 0
  let c1 := if 5 < task.requirements.length then c0 + 1 else c0
  let c2 := if 100 < countWords task.description then c1 + 1 else c1
  let c3 := if task.priority = .high ∨ task.priority = .critical then c2 + 1 else c2
  let c4 := if strMentions (strLower task.description) "integração" then c3 + 1 else c3
  let c5 := if strMentions (strLower task.description) "api" then c4 + 1 else c4
  if 3 ≤ c5 then "high" else if 1 ≤ c5 then "medium" else "low"

/-- The complexity scoring rule as the claim states it: the sum of five
0/1 indicators ("requirement count > 5", "description word count > 100",
"priority HIGH or CRITICAL", "description mentions an integration-type
keyword", "description mentions an API-type keyword"; the keyword tests
are the source's lowercased substring tests for `"integração"` and
`"api"`). -/
def complexityScore (task : Task) : Nat :=
  (if 5 < task.requirements.length then 1 else 0) +
  (if 100 < countWords task.description then 1 else 0) +
  (if task.priority = .high ∨ task.priority = .critical then 1 else 0) +
  (if strMentions (strLower task.description) "integração" then 1 else 0) +
  (if strMentions (strLower task.description) "api" then 1 else 0)

/-- `PlannerAgent._choose_strategy`. -/
def chooseStrategy (complexity : String) (priority : TaskPriority) : String :=
  if complexity = "high" ∨ priority = .critical then "hybrid"
  else if complexity = "medium" then "parallel"
  else "sequential"

/-- `PlannerAgent._sequential_planning`: fixed template of 5 subtasks. -/
def sequentialPlanning (task : Task) : List SubTask :=
  [⟨"1", task.id, "Análise de Requisitos", "Analisar e documentar todos os requisitos",
      1, .pending, 30, []⟩,
   ⟨"2", task.id, "Design da Solução", "Criar design e arquitetura da solução",
      2, .pending, 45, ["1"]⟩,
   ⟨"3", task.id, "Implementação", "Implementar a solução conforme o design",
      3, .pending, 120, ["2"]⟩,
   ⟨"4", task.id, "Testes", "Executar testes e validações",
      4, .pending, 60, ["3"]⟩,
   ⟨"5", task.id, "Documentação", "Criar documentação final",
      5, .pending, 30, ["4"]⟩]

/-- `PlannerAgent._parallel_planning`: fixed template of 9 subtasks. -/
def parallelPlanning (task : Task) : List SubTask :=
  [⟨"1", task.id, "Análise de Requisitos", "Analisar e documentar todos os requisitos",
      1, .pending, 30, []⟩,
   ⟨"2", task.id, "Pesquisa de Tecnologias", "Pesquisar tecnologias e ferramentas",
      2, .pending, 45, []⟩,
   ⟨"3", task.id, "Design da Arquitetura", "Criar arquitetura do sistema",
      3, .pending, 60, ["1"]⟩,
   ⟨"4", task.id, "Setup do Ambiente", "Configurar ambiente de desenvolvimento",
      4, .pending, 30, ["2"]⟩,
   ⟨"5", task.id, "Implementação Core", "Implementar funcionalidades principais",
      5, .pending, 90, ["3", "4"]⟩,
   ⟨"6", task.id, "Implementação UI", "Implementar interface do usuário",
      6, .pending, 60, ["3", "4"]⟩,
   ⟨"7", task.id, "Testes Unitários", "Criar e executar testes unitários",
      7, .pending, 45, ["5"]⟩,
   ⟨"8", task.id, "Testes de Integração", "Executar testes de integração",
      8, .pending, 30, ["5", "6"]⟩,
   ⟨"9", task.id, "Documentação", "Criar documentação completa",
      9, .pending, 40, ["7", "8"]⟩]

/-- `PlannerAgent._hybrid_planning`: fixed template of 12 subtasks. -/
def hybridPlanning (task : Task) : List SubTask :=
  [⟨"1", task.id, "Análise Detalhada", "Análise profunda de requisitos e restrições",
      1, .pending, 45, []⟩,
   ⟨"2", task.id, "Prototipagem", "Criar protótipo inicial",
      2, .pending, 60, ["1"]⟩,
   ⟨"3", task.id, "Validação do Protótipo", "Validar protótipo com stakeholders",
      3, .pending, 30, ["2"]⟩,
   ⟨"4", task.id, "Arquitetura Detalhada", "Definir arquitetura detalhada",
      4, .pending, 75, ["3"]⟩,
   ⟨"5", task.id, "Setup Avançado", "Configurar ambiente e ferramentas",
      5, .pending, 45, ["4"]⟩,
   ⟨"6", task.id, "Implementação Módulo A", "Implementar primeiro módulo",
      6, .pending, 90, ["5"]⟩,
   ⟨"7", task.id, "Implementação Módulo B", "Implementar segundo módulo",
      7, .pending, 90, ["5"]⟩,
   ⟨"8", task.id, "Integração de Módulos", "Integrar todos os módulos",
      8, .pending, 60, ["6", "7"]⟩,
   ⟨"9", task.id, "Testes Abrangentes", "Executar bateria completa de testes",
      9, .pending, 75, ["8"]⟩,
   ⟨"10", task.id, "Otimização", "Otimizar performance e recursos",
      10, .pending, 45, ["9"]⟩,
   ⟨"11", task.id, "Documentação Técnica", "Criar documentação técnica",
      11, .pending, 30, ["10"]⟩,
   ⟨"12", task.id, "Documentação do Usuário", "Criar documentação do usuário",
      12, .pending, 30, ["10"]⟩]

/-- `PlannerAgent._decompose_task`: dictionary dispatch on the strategy
name.  Every call site passes one of the three registered keys; the final
branch is the `"hybrid"` entry. -/
def decomposeTask (task : Task) (strategy : String) : List SubTask :=
  if strategy = "sequential" then sequentialPlanning task
  else if strategy = "parallel" then parallelPlanning task
  else hybridPlanning task

/-- `PlannerAgent.process`: analyze complexity, choose a strategy,
decompose, and assemble the `Plan` (its generated id and creation time
come from `env`). -/
def plannerProcess (task : Task) (env : Env) : Plan :=
  let complexity := analyzeComplexity task
  let strategy := chooseStrategy complexity task.priority
  let subtasks := decomposeTask task strategy
  { id := env.freshId
    task_id := task.id
    subtasks := subtasks
    estimated_total_time := (subtasks.map (·.estimated_time)).sum
    created_at := env.now
    agent_id := env.agentId }

/-- Strategy override used by `PlannerAgent.replan`: any issue containing
`"tempo"` forces `"parallel"`; otherwise any issue containing
`"qualidade"` forces `"hybrid"`; otherwise `"sequential"`. -/
def replanStrategy (issues : List String) : String :=
  if issues.any (fun issue => strMentions (strLower issue) "tempo") then "parallel"
  else if issues.any (fun issue => strMentions (strLower issue) "qualidade") then "hybrid"
  else "sequential"

/-- The 20% time buffer `int(subtask.estimated_time * 1.2)` applied by
`replan`.  `Int.tdiv` truncates toward zero exactly as Python's `int()`
does; on every estimate the templates produce (all multiples of 5) the
float product `t * 1.2` is itself exact enough that truncation yields
exactly `6t/5`, which `(t * 12).tdiv 10` reproduces. -/
def bufferTime (t : Int) : Int := (t * 12).tdiv 10

/-- `PlannerAgent.replan`: issue-driven strategy override, fresh
decomposition, and a uniform 20% buffer on every subtask estimate. -/
def replan (task : Task) (issues : List String) (env : Env) : Plan :=
  let strategy := replanStrategy issues
  let subtasks := (decomposeTask task strategy).map
    (fun st => { st with estimated_time := bufferTime st.estimated_time })
  { id := env.freshId
    task_id := task.id
    subtasks := subtasks
    estimated_total_time := (subtasks.map (·.estimated_time)).sum
    created_at := env.now
    agent_id := env.agentId }

/-! ## Per-agent performance metrics (`agents/base_agent.py`) -/

structure PerfMetrics where
  tasks_completed : Nat
  success_rate : ℚ
  average_execution_time : ℚ
deriving DecidableEq

/-- The metric state set up in `BaseAgent.__init__`. -/
def initialPerfMetrics : PerfMetrics := ⟨0, 0, 0⟩

/-- `BaseAgent.update_performance`. -/
def updatePerformance (m : PerfMetrics) (execution_time : ℚ) (success : Bool) : PerfMetrics :=
  let total_tasks := m.tasks_completed + 1
  let current_successes :=
    m.success_rate * ((total_tasks : ℚ) - 1) + (if success then 1 else 0)
  { tasks_completed := total_tasks
    success_rate := current_successes / (total_tasks : ℚ)
    average_execution_time :=
      (m.average_execution_time * ((total_tasks : ℚ) - 1) + execution_time) / (total_tasks : ℚ) }

/-- `n` successive `update_performance` calls, all successful with the same
duration `d`, starting from the initial metric state. -/
def repeatUpdate (d : ℚ) : Nat → PerfMetrics
  | 0 => initialPerfMetrics
  | n + 1 => updatePerformance (repeatUpdate d n) d true

/-! ## System-level metrics (`multi_agent_system.py`) -/

structure SystemMetrics where
  tasks_processed : Nat
  success_rate : ℚ
  average_completion_time : ℚ
  replanning_rate : ℚ
deriving DecidableEq

/-- The metric state set up in `MultiAgentSystem.__init__`. -/
def initialSystemMetrics : SystemMetrics := ⟨0, 0, 0, 0⟩

/-- `MultiAgentSystem._update_system_metrics`.  Note that the
`replanning_rate` entry is touched only inside the
`if replanning_attempts > 0` block. -/
def updateSystemMetrics (m : SystemMetrics) (completion_time : ℚ) (success : Bool)
    (replanning_attempts : Nat) : SystemMetrics :=
  let total_tasks := m.tasks_processed + 1
  let current_successes :=
    m.success_rate * ((total_tasks : ℚ) - 1) + (if success then 1 else 0)
  { tasks_processed := total_tasks
    success_rate := current_successes / (total_tasks : ℚ)
    average_completion_time :=
      (m.average_completion_time * ((total_tasks : ℚ) - 1) + completion_time) / (total_tasks : ℚ)
    replanning_rate :=
      if 0 < replanning_attempts then
        (m.replanning_rate * ((total_tasks : ℚ) - 1) + 1) / (total_tasks : ℚ)
      else m.replanning_rate }

/-! ## Execution agent (`agents/execution_agent.py`)

The work oracle `work : SubTask → Option Output` abstracts the
`_execute_*` strategy call inside `execute_subtask`: `some o` is a normal
return with payload `o`, `none` is a raised exception.  Generated result
ids, timestamps and measured durations (never read by any claim) are
fixed at `""`/`0`; the exception text is abstracted. -/

def executeSubtask (work : SubTask → Option Output) (st : SubTask) : ExecutionResult :=
  match work st with
  | some o =>
    { id := "", task_id := st.parent_task_id, subtask_id := some st.id, success := true
      output := some o, error_message := none, execution_time := 0, timestamp := 0 }
  | none =>
    { id := "", task_id := st.parent_task_id, subtask_id := some st.id, success := false
      output := none, error_message := some "error", execution_time := 0, timestamp := 0 }

/-- The mutable state of one `ExecutionAgent.process` call: per-subtask
statuses (parallel to `plan.subtasks`, mutated in place by the source),
the `executed_subtasks` id set, and the accumulated result list. -/
structure ExecSt where
  statuses : List TaskStatus
  executed : List String
  results : List ExecutionResult
deriving DecidableEq

/-- `executed_subtasks.add(...)`: set insertion. -/
def insertExecuted (id' : String) (ex : List String) : List String :=
  if ex.contains id' then ex else ex ++ [id']

def defaultSubTask : SubTask := ⟨"", "", "", "", 0, .pending, 0, []⟩

/-- `ExecutionAgent._get_ready_subtasks`, returning the positions (in plan
order) of the subtasks that are ready: not in the executed set, not marked
COMPLETED, and with every dependency id in the executed set. -/
def getReadySubtasks (subtasks : List SubTask) (statuses : List TaskStatus)
    (executed : List String) : List Nat :=
  (List.range subtasks.length).filter (fun i =>
    let st := subtasks.getD i defaultSubTask
    let status := statuses.getD i TaskStatus.pending
    !(executed.contains st.id || status == TaskStatus.completed) &&
      st.dependencies.all (fun dep => executed.contains dep))

/-- One iteration of the `for subtask in ready_subtasks` body: dispatch,
append the result, and on success mark COMPLETED and add to the executed
set, on failure mark FAILED. -/
def dispatchStep (work : SubTask → Option Output) (subtasks : List SubTask) (i : Nat)
    (s : ExecSt) : ExecSt :=
  let st := subtasks.getD i defaultSubTask
  let r := executeSubtask work st
  if r.success then
    { statuses := s.statuses.set i .completed
      executed := insertExecuted st.id s.executed
      results := s.results ++ [r] }
  else
    { statuses := s.statuses.set i .failed
      executed := s.executed
      results := s.results ++ [r] }

/-- The whole `for subtask in ready_subtasks` loop over one snapshot of the
ready set. -/
def runWave (work : SubTask → Option Output) (subtasks : List SubTask) :
    List Nat → ExecSt → ExecSt
  | [], s => s
  | i :: rest, s => runWave work subtasks rest (dispatchStep work subtasks i s)

/-- How one `ExecutionAgent.process` call ended: the `while` condition
became false (`normal`), the empty-ready-set `break` fired after logging
the circular-dependency diagnostic (`circular`), or the fuel bound was hit
(`fuelOut`, modelling an unfinished prefix of a Python loop that is still
running). -/
inductive ExecExit where
  | normal
  | circular
  | fuelOut
deriving DecidableEq

/-- The `while len(executed_subtasks) < len(plan.subtasks)` loop of
`ExecutionAgent.process`, with explicit fuel. -/
def execLoop (work : SubTask → Option Output) (subtasks : List SubTask) :
    Nat → ExecSt → ExecSt × ExecExit
  | 0, s => (s, .fuelOut)
  | fuel + 1, s =>
    if s.executed.length < subtasks.length then
      let ready := getReadySubtasks subtasks s.statuses s.executed
      if ready.isEmpty then (s, .circular)
      else execLoop work subtasks fuel (runWave work subtasks ready s)
    else (s, .normal)

/-- `ExecutionAgent.process`: run the scheduling loop from the plan's own
subtask statuses, an empty executed set and an empty result list. -/
def execProcess (work : SubTask → Option Output) (plan : Plan) (fuel : Nat) :
    List ExecutionResult × ExecExit :=
  let init : ExecSt := ⟨plan.subtasks.map (·.status), [], []⟩
  let (s, e) := execLoop work plan.subtasks fuel init
  (s.results, e)

/-! ## Verification agent (`agents/verification_agent.py`)

The individual `_verify_*` rules read their fields from the payload dict
with `output.get(field, default)`; the typed `Output` variants carry those
fields directly (a missing list field and an empty one are both length 0,
matching the `.get(..., [])` default).  Interpolated numeric suffixes of
issue strings (e.g. the `{coverage:.1f}` in the low-coverage message) are
dropped; no claim reads them.  `list(set(...))` deduplication is modelled
by `List.eraseDups` (Python's set iteration order is unspecified). -/

structure IndividualVerification where
  result_id : String
  quality_score : ℚ
  accuracy_score : ℚ
  issues : List String
  category : String
deriving DecidableEq

/-- `VerificationAgent._verify_analysis`. -/
def verifyAnalysis (r : ExecutionResult)
    (requirements_identified stakeholders constraints risks : Nat) : IndividualVerification :=
  let issues :=
    (if requirements_identified = 0 then
      ["Campo obrigatório ausente ou vazio: requirements_identified"] else []) ++
    (if stakeholders = 0 then ["Campo obrigatório ausente ou vazio: stakeholders"] else []) ++
    (if constraints = 0 then ["Campo obrigatório ausente ou vazio: constraints"] else []) ++
    (if risks = 0 then ["Campo obrigatório ausente ou vazio: risks"] else []) ++
    (if requirements_identified < 3 then
      ["Número insuficiente de requisitos identificados"] else [])
  { result_id := r.id
    quality_score := max 0 (1 - (issues.length : ℚ) * 0.2)
    accuracy_score := if 3 ≤ requirements_identified then 0.9 else 0.6
    issues := issues
    category := "analysis" }

/-- `VerificationAgent._verify_design`. -/
def verifyDesign (r : ExecutionResult) (architecture_pattern : Option String)
    (components interfaces : Nat) : IndividualVerification :=
  let issues :=
    (if architecture_pattern.isNone then ["Padrão de arquitetura não especificado"] else []) ++
    (if components < 2 then ["Número insuficiente de componentes definidos"] else []) ++
    (if interfaces = 0 then ["Interfaces não definidas"] else [])
  { result_id := r.id
    quality_score := max 0 (1 - (issues.length : ℚ) * 0.25)
    accuracy_score := if 3 ≤ components then 0.85 else 0.7
    issues := issues
    category := "design" }

/-- `VerificationAgent._verify_implementation`. -/
def verifyImplementation (r : ExecutionResult) (files_created : Nat) (lines_of_code : Int)
    (code_quality_score : ℚ) : IndividualVerification :=
  let issues :=
    (if files_created < 3 then ["Número insuficiente de arquivos criados"] else []) ++
    (if code_quality_score < 0.7 then ["Qualidade do código baixa"] else []) ++
    (if lines_of_code < 100 then ["Implementação muito pequena"] else [])
  { result_id := r.id
    quality_score := min 1 (code_quality_score + 0.1)
    accuracy_score := if 200 ≤ lines_of_code then 0.9 else 0.7
    issues := issues
    category := "implementation" }

/-- `VerificationAgent._verify_testing`.  The accuracy score is the raw
ratio `tests_passed / tests_executed` whenever `tests_executed > 0`. -/
def verifyTesting (r : ExecutionResult) (tests_executed tests_passed : Int)
    (coverage_percentage : ℚ) (bugs_found : Int) : IndividualVerification :=
  let issues :=
    (if coverage_percentage < 80 then ["Cobertura de testes baixa"] else []) ++
    (if 0 < tests_executed then
      (if (tests_passed : ℚ) / (tests_executed : ℚ) < 0.9 then
        ["Taxa de sucesso dos testes baixa"] else [])
     else ["Nenhum teste executado"]) ++
    (if 3 < bugs_found then ["Muitos bugs encontrados"] else [])
  { result_id := r.id
    quality_score := min 1 (coverage_percentage / 100 + 0.1)
    accuracy_score :=
      if 0 < tests_executed then (tests_passed : ℚ) / (tests_executed : ℚ) else 0
    issues := issues
    category := "testing" }

/-- `VerificationAgent._verify_documentation`. -/
def verifyDocumentation (r : ExecutionResult) (documents_created : Nat)
    (pages_written : Int) (sections : List String) : IndividualVerification :=
  let missing := ["Introdução", "Instalação", "Uso"].filter (fun s => !(sections.contains s))
  let issues :=
    (if documents_created < 2 then ["Número insuficiente de documentos criados"] else []) ++
    (if pages_written < 10 then ["Documentação muito breve"] else []) ++
    (if !missing.isEmpty then
      ["Seções obrigatórias ausentes: " ++ String.intercalate ", " missing] else [])
  { result_id := r.id
    quality_score := max 0 (1 - (issues.length : ℚ) * 0.2)
    accuracy_score := if 20 ≤ pages_written then 0.9 else 0.7
    issues := issues
    category := "documentation" }

/-- `VerificationAgent._verify_setup`. -/
def verifySetup (r : ExecutionResult) (environment_configured : Bool)
    (tools_installed config_files : Nat) : IndividualVerification :=
  let issues :=
    (if !environment_configured then ["Ambiente não configurado adequadamente"] else []) ++
    (if tools_installed < 3 then ["Ferramentas insuficientes instaladas"] else []) ++
    (if config_files = 0 then ["Arquivos de configuração não criados"] else [])
  { result_id := r.id
    quality_score := max 0 (1 - (issues.length : ℚ) * 0.3)
    accuracy_score := if 5 ≤ tools_installed then 0.95 else 0.8
    issues := issues
    category := "setup" }

/-- `VerificationAgent._verify_integration`. -/
def verifyIntegration (r : ExecutionResult) (modules_integrated : Nat)
    (data_flow_verified : Bool) (integration_tests_passed : Int) : IndividualVerification :=
  let issues :=
    (if modules_integrated < 2 then ["Número insuficiente de módulos integrados"] else []) ++
    (if !data_flow_verified then ["Fluxo de dados não verificado"] else []) ++
    (if integration_tests_passed < 5 then ["Testes de integração insuficientes"] else [])
  { result_id := r.id
    quality_score := max 0 (1 - (issues.length : ℚ) * 0.25)
    accuracy_score := if 10 ≤ integration_tests_passed then 0.9 else 0.7
    issues := issues
    category := "integration" }

/-- `dict.get` on a string-valued dict, for the
`performance_improvements` lookup in `_verify_optimization`. -/
def dictGetD (d : List (String × String)) (k : String) (dflt : String) : String :=
  match d.find? (fun p => p.1 == k) with
  | some p => p.2
  | none => dflt

/-- `VerificationAgent._verify_optimization`. -/
def verifyOptimization (r : ExecutionResult) (optimizations_applied : Nat)
    (performance_improvements : List (String × String)) : IndividualVerification :=
  let response_time := dictGetD performance_improvements "response_time" "0% faster"
  let issues :=
    (if optimizations_applied < 2 then
      ["Número insuficiente de otimizações aplicadas"] else []) ++
    (if performance_improvements.isEmpty then
      ["Melhorias de performance não documentadas"] else []) ++
    (if !(strMentions response_time "faster") then ["Tempo de resposta não melhorou"] else [])
  { result_id := r.id
    quality_score := max 0 (1 - (issues.length : ℚ) * 0.2)
    accuracy_score := if 3 ≤ optimizations_applied then 0.85 else 0.7
    issues := issues
    category := "optimization" }

/-- Python truthiness of `result.output`: `None` and `{}` are falsy, every
other payload dict is non-empty and truthy. -/
def outputTruthy : Option Output → Bool
  | none => false
  | some .emptyDict => false
  | some _ => true

/-- `VerificationAgent._verify_generic`. -/
def verifyGeneric (r : ExecutionResult) : IndividualVerification :=
  let issues :=
    (if !outputTruthy r.output then ["Resultado vazio"] else []) ++
    (if 300 < r.execution_time then ["Tempo de execução muito longo"] else [])
  { result_id := r.id
    quality_score := if issues.isEmpty then 0.7 else 0.4
    accuracy_score := 0.6
    issues := issues
    category := "generic" }

/-- `VerificationAgent._verify_individual_result`: failed executions get
zero scores; successful ones are dispatched on the payload's `"type"` tag
(`other`/`emptyDict`/`None` payloads fall back to `_verify_generic`). -/
def verifyIndividualResult (r : ExecutionResult) : IndividualVerification :=
  if !r.success then
    { result_id := r.id, quality_score := 0, accuracy_score := 0
      issues := ["Execução falhou: " ++ r.error_message.getD "None"]
      category := "failed_execution" }
  else
    match r.output with
    | some (.analysis a b c d) => verifyAnalysis r a b c d
    | some (.design a b c) => verifyDesign r a b c
    | some (.implementation a b c) => verifyImplementation r a b c
    | some (.testing a b c d) => verifyTesting r a b c d
    | some (.documentation a b c) => verifyDocumentation r a b c
    | some (.setup a b c) => verifySetup r a b c
    | some (.integration a b c) => verifyIntegration r a b c
    | some (.optimization a b) => verifyOptimization r a b
    | some (.other _) => verifyGeneric r
    | some .emptyDict => verifyGeneric r
    | none => verifyGeneric r

/-- `VerificationAgent._calculate_overall_quality`: 0 on the empty list,
otherwise the arithmetic mean. -/
def calculateOverallQuality (vs : List IndividualVerification) : ℚ :=
  if vs.isEmpty then 0
  else ((vs.map (·.quality_score)).sum) / (vs.length : ℚ)

/-- `VerificationAgent._calculate_overall_accuracy`. -/
def calculateOverallAccuracy (vs : List IndividualVerification) : ℚ :=
  if vs.isEmpty then 0
  else ((vs.map (·.accuracy_score)).sum) / (vs.length : ℚ)

/-- `VerificationAgent._identify_issues`. -/
def identifyIssues (vs : List IndividualVerification)
    (execution_results : List ExecutionResult) : List String :=
  let all_issues := (vs.map (·.issues)).flatten
  let failed := execution_results.filter (fun r => !r.success)
  let all_issues := all_issues ++
    (if (execution_results.length : ℚ) * 0.2 < (failed.length : ℚ) then
      ["Alta taxa de falhas na execução"] else [])
  let total_time := (execution_results.map (·.execution_time)).sum
  let all_issues := all_issues ++
    (if 1800 < total_time then ["Tempo total de execução muito longo"] else [])
  all_issues.eraseDups

/-- `VerificationAgent._generate_recommendations`. -/
def generateRecommendations (issues : List String)
    (vs : List IndividualVerification) : List String :=
  let recommendations :=
    (if issues.any (fun issue => strMentions (strLower issue) "qualidade do código") then
      ["Implementar revisão de código mais rigorosa",
       "Usar ferramentas de análise estática de código"] else []) ++
    (if issues.any (fun issue => strMentions (strLower issue) "cobertura") then
      ["Aumentar cobertura de testes para pelo menos 80%",
       "Implementar testes de integração adicionais"] else []) ++
    (if issues.any (fun issue => strMentions (strLower issue) "documentação") then
      ["Expandir documentação com mais detalhes",
       "Adicionar exemplos práticos na documentação"] else []) ++
    (if issues.any (fun issue => strMentions (strLower issue) "tempo") then
      ["Otimizar processos para reduzir tempo de execução",
       "Considerar paralelização de tarefas"] else [])
  let low_quality := vs.filter (fun v => decide (v.quality_score < 0.7))
  let recommendations := recommendations ++
    (if (vs.length : ℚ) * 0.3 < (low_quality.length : ℚ) then
      ["Revisar processo de desenvolvimento para melhorar qualidade",
       "Implementar checkpoints de qualidade mais frequentes"] else [])
  if recommendations.isEmpty then ["Manter padrão atual de qualidade"] else recommendations

/-- `VerificationAgent._determine_pass_status`: both score thresholds met
and no issue containing a critical-failure keyword. -/
def determinePassStatus (quality_score accuracy_score : ℚ) (issues : List String) : Bool :=
  let meets_quality := decide ((0.7 : ℚ) ≤ quality_score)
  let meets_accuracy := decide ((0.8 : ℚ) ≤ accuracy_score)
  let critical_issues := issues.filter (fun issue =>
    ["falhou", "crítico", "erro fatal"].any (fun kw => strMentions (strLower issue) kw))
  meets_quality && meets_accuracy && critical_issues.isEmpty

/-- `VerificationAgent.process`: per-result verification, aggregation,
issue collection, recommendations and the pass verdict. -/
def verifierProcess (execution_results : List ExecutionResult) (task : Task)
    (env : Env) : VerificationResult :=
  let vs := execution_results.map verifyIndividualResult
  let overall_quality := calculateOverallQuality vs
  let overall_accuracy := calculateOverallAccuracy vs
  let issues := identifyIssues vs execution_results
  let recommendations := generateRecommendations issues vs
  let passed := determinePassStatus overall_quality overall_accuracy issues
  { id := env.freshId
    task_id := task.id
    passed := passed
    quality_score := overall_quality
    accuracy_score := overall_accuracy
    issues_found := issues
    recommendations := recommendations
    timestamp := env.now }

/-! ## Orchestrator (`multi_agent_system.py`)

`MultiAgentSystem.process_task` is embedded parameterically over the three
agents' behaviors (an `Agents` record of the calls it makes); the concrete
agents above are instances.  The abstract agent functions are total, so
the `except` branch of the source loop is unreachable in the model.  The
returned trace additionally records how often each agent entry point was
called and the final `task.status`/system-metrics state, mirroring the
source's side effects. -/

structure Agents where
  plan : Task → Plan
  replan : Task → List String → Plan
  exec : Plan → List ExecutionResult
  verify : List ExecutionResult → Task → VerificationResult

/-- The result dictionaries built by `_create_success_result` /
`_create_failure_result` (timing fields and the nested per-agent
performance snapshots, which no claim reads, are omitted). -/
inductive Outcome where
  | success (task_id : String) (replanning_attempts : Nat) (passed : Bool)
      (quality_score accuracy_score : ℚ) (issues_count recommendations_count : Nat)
      (total_subtasks successful_subtasks failed_subtasks : Nat)
  | failure (task_id : String) (replanning_attempts : Nat) (failure_reason : String)
      (quality_score accuracy_score : ℚ) (issues_found recommendations : List String)
      (total_subtasks successful_subtasks failed_subtasks : Nat)
deriving DecidableEq

/-- `MultiAgentSystem._create_success_result`. -/
def mkSuccessOutcome (task : Task) (results : List ExecutionResult)
    (vr : VerificationResult) (attempts : Nat) : Outcome :=
  .success task.id attempts vr.passed vr.quality_score vr.accuracy_score
    vr.issues_found.length vr.recommendations.length
    results.length (results.filter (·.success)).length
    (results.filter (fun r => !r.success)).length

/-- `MultiAgentSystem._create_failure_result`. -/
def mkFailureOutcome (task : Task) (results : List ExecutionResult)
    (vr : VerificationResult) (attempts : Nat) : Outcome :=
  .failure task.id attempts "verification_failed_after_max_replanning"
    vr.quality_score vr.accuracy_score vr.issues_found vr.recommendations
    results.length (results.filter (·.success)).length
    (results.filter (fun r => !r.success)).length

/-- What one `process_task` call did: the returned value (`none` models
Python's implicit `return None`), the final `task.status`, the system
metrics afterwards, and how often each agent entry point was called. -/
structure ProcessTrace where
  outcome : Option Outcome
  taskStatus : TaskStatus
  metrics : SystemMetrics
  planCalls : Nat
  replanCalls : Nat
  execCalls : Nat
  verifyCalls : Nat
deriving DecidableEq

/-- The `while replanning_attempts <= max_replanning_attempts` loop of
`process_task`.  `remaining = max_replanning_attempts -
replanning_attempts` counts the replans still allowed; `prevIssues` is the
previous iteration's `verification_result.issues_found` (the source reads
it via `locals()`, absent on the first iteration). -/
def processTaskGo (ag : Agents) (task : Task) (elapsed : ℚ) (m : SystemMetrics) :
    Nat → Nat → Option (List String) → Nat → Nat → Nat → Nat → ProcessTrace
  | remaining, attempts, prevIssues, pc, rc, ec, vc =>
    let planned : Plan × Nat × Nat :=
      if attempts = 0 then (ag.plan task, pc + 1, rc)
      else (ag.replan task (prevIssues.getD []), pc, rc + 1)
    let plan := planned.1
    let pc := planned.2.1
    let rc := planned.2.2
    let results := ag.exec plan
    let vr := ag.verify results task
    if vr.passed then
      { outcome := some (mkSuccessOutcome task results vr attempts)
        taskStatus := .completed
        metrics := updateSystemMetrics m elapsed true attempts
        planCalls := pc, replanCalls := rc, execCalls := ec + 1, verifyCalls := vc + 1 }
    else
      match remaining with
      | r + 1 =>
        processTaskGo ag task elapsed m r (attempts + 1) (some vr.issues_found)
          pc rc (ec + 1) (vc + 1)
      | 0 =>
        { outcome := some (mkFailureOutcome task results vr attempts)
          taskStatus := .failed
          metrics := updateSystemMetrics m elapsed false attempts
          planCalls := pc, replanCalls := rc, execCalls := ec + 1, verifyCalls := vc + 1 }

/-- `MultiAgentSystem.process_task`.  `task.status` is set to IN_PROGRESS
before the loop; with a negative `max_replanning_attempts` the loop body
never runs and the function falls off its end, returning `None` with the
metrics untouched. -/
def processTask (ag : Agents) (m : SystemMetrics) (task : Task) (elapsed : ℚ)
    (max_replanning_attempts : Int) : ProcessTrace :=
  if max_replanning_attempts < 0 then
    { outcome := none, taskStatus := .in_progress, metrics := m
      planCalls := 0, replanCalls := 0, execCalls := 0, verifyCalls := 0 }
  else
    processTaskGo ag task elapsed m max_replanning_attempts.toNat 0 none 0 0 0 0

/-- `c` is a dependency cycle among `subtasks`: non-empty, all members are
subtasks of the plan, and each member lists the id of the (cyclically)
next member among its dependencies. -/
def DepCycle (subtasks c : List SubTask) : Prop :=
  c ≠ [] ∧ (∀ st ∈ c, st ∈ subtasks) ∧
    ∀ i : Fin c.length,
      (c.get ⟨(i.val + 1) % c.length,
        Nat.mod_lt _ (Nat.lt_of_le_of_lt (Nat.zero_le _) i.isLt)⟩).id ∈
        (c.get i).dependencies

end MAS

/-! ## Shared concrete inputs used by witnesses and counterexamples -/

/-- A concrete work item. -/
def stubTask : MAS.Task :=
  ⟨"t1", "Tarefa", "descrição curta", .low, .pending, 0, 0, ["r1", "r2"], "saída"⟩

/-- A concrete environment for id/timestamp supply. -/
def stubEnv : MAS.Env := ⟨"fresh", 0, "agent"⟩

/-- A verification outcome that always fails. -/
def stubFailVerification : MAS.VerificationResult :=
  ⟨"v1", "t1", false, 0, 0, ["problema"], ["recomendação"], 0⟩

/-- Concrete agent behaviors: a trivial planner, an executor returning no
results, and a verifier that always fails. -/
def stubAgents : MAS.Agents where
  plan := fun task => ⟨"p1", task.id, [], 0, 0, "agent"⟩
  replan := fun task _ => ⟨"p2", task.id, [], 0, 0, "agent"⟩
  exec := fun _ => []
  verify := fun _ _ => stubFailVerification

/-- A work oracle on which every dispatch succeeds. -/
def allSuccessWork : MAS.SubTask → Option MAS.Output := fun _ => some (.other "x")

/-- A work oracle on which every dispatch fails (the strategy call
raises). -/
def failWork : MAS.SubTask → Option MAS.Output := fun _ => none

/-- A plan with a single dependency-free subtask. -/
def c1Plan : MAS.Plan :=
  ⟨"p1", "t1", [⟨"1", "t1", "Implementação", "x", 1, .pending, 30, []⟩], 30, 0, "agent"⟩

def c2CycleA : MAS.SubTask := ⟨"1", "t2", "A", "", 1, .pending, 30, ["2"]⟩

def c2CycleB : MAS.SubTask := ⟨"2", "t2", "B", "", 2, .pending, 30, ["1"]⟩

/-- A plan whose two subtasks form a dependency cycle. -/
def c2Plan : MAS.Plan := ⟨"p2", "t2", [c2CycleA, c2CycleB], 60, 0, "agent"⟩

def c2wFree : MAS.SubTask := ⟨"0", "t3", "Livre", "", 1, .pending, 30, []⟩

def c2wA : MAS.SubTask := ⟨"1", "t3", "A", "", 2, .pending, 30, ["2"]⟩

def c2wB : MAS.SubTask := ⟨"2", "t3", "B", "", 3, .pending, 30, ["1"]⟩

/-- A plan with one independent subtask plus a two-subtask dependency
cycle. -/
def c2wPlan : MAS.Plan := ⟨"p3", "t3", [c2wFree, c2wA, c2wB], 90, 0, "agent"⟩

/-- A successful testing-type execution result whose payload reports more
tests passed (48) than executed (15) — field values the executor's own
testing stub draws independently at random from [12,48] and [15,50]. -/
def c3TestingResult : MAS.ExecutionResult :=
  ⟨"r1", "t1", some "1", true, some (.testing 15 48 90 0), none, 10, 0⟩

/-! ## Scheduling-loop invariants used in the analysis of cyclic plans -/

/-- Position `i` satisfies the readiness conditions of
`_get_ready_subtasks` relative to the executed-id set `ex0` (the parts
that matter for the cycle analysis: a valid position whose id is not yet
executed and whose dependencies all are). -/
def ReadyAt (subtasks : List MAS.SubTask) (ex0 : List String) (i : Nat) : Prop :=
  i < subtasks.length ∧
  (subtasks.getD i MAS.defaultSubTask).id ∉ ex0 ∧
  ∀ dep ∈ (subtasks.getD i MAS.defaultSubTask).dependencies, dep ∈ ex0

/-- Invariant of the `ExecutionAgent.process` loop state on a plan whose
subtask ids are distinct and that contains the dependency cycle `c`: the
executed set holds distinct ids of plan subtasks, no member of the cycle
ever enters it, and (when every dispatch succeeds) there is exactly one
result per executed id. -/
structure ExecInv (subtasks c : List MAS.SubTask) (s : MAS.ExecSt) : Prop where
  nodupEx : s.executed.Nodup
  subEx : ∀ x ∈ s.executed, x ∈ subtasks.map (fun st => st.id)
  cycFree : ∀ st ∈ c, st.id ∉ s.executed
  resLen : s.results.length = s.executed.length

/-! ## Lemmas about the scheduling loop -/

theorem stAt_mem {subtasks : List MAS.SubTask} {i : Nat} (h : i < subtasks.length) :
    subtasks.getD i MAS.defaultSubTask ∈ subtasks := by
  rw [List.getD_eq_getElem _ _ h]
  exact List.getElem_mem h

theorem id_index_inj {subtasks : List MAS.SubTask}
    (hnodup : (subtasks.map (fun st => st.id)).Nodup)
    {i j : Nat} (hi : i < subtasks.length) (hj : j < subtasks.length) (hij : i ≠ j) :
    (subtasks.getD i MAS.defaultSubTask).id ≠ (subtasks.getD j MAS.defaultSubTask).id := by
  intro heq
  rw [List.getD_eq_getElem _ _ hi, List.getD_eq_getElem _ _ hj] at heq
  have hi' : i < (subtasks.map (fun st => st.id)).length := by simpa using hi
  have hj' : j < (subtasks.map (fun st => st.id)).length := by simpa using hj
  have hget : (subtasks.map (fun st => st.id)).get ⟨i, hi'⟩ =
      (subtasks.map (fun st => st.id)).get ⟨j, hj'⟩ := by
    simp only [List.get_eq_getElem, List.getElem_map]
    exact heq
  have := (List.Nodup.get_inj_iff hnodup).mp hget
  exact hij (by simpa using congrArg Fin.val this)

/-- Anything `_get_ready_subtasks` returns satisfies `ReadyAt` relative to
the executed set it was computed from. -/
theorem ready_mem {subtasks : List MAS.SubTask} {sts : List MAS.TaskStatus}
    {ex : List String} {i : Nat} (h : i ∈ MAS.getReadySubtasks subtasks sts ex) :
    ReadyAt subtasks ex i := by
  unfold MAS.getReadySubtasks at h
  rw [List.mem_filter, List.mem_range] at h
  obtain ⟨hlt, hp⟩ := h
  rw [Bool.and_eq_true] at hp
  obtain ⟨h1, h2⟩ := hp
  refine ⟨hlt, ?_, ?_⟩
  · rw [Bool.not_eq_true'] at h1
    simpa using (Bool.or_eq_false_iff.mp h1).1
  · intro dep hdep
    rw [List.all_eq_true] at h2
    simpa using h2 dep hdep

theorem insertExecuted_of_not_mem {a : String} {ex : List String} (h : a ∉ ex) :
    MAS.insertExecuted a ex = ex ++ [a] := by
  unfold MAS.insertExecuted
  rw [if_neg]
  simpa using h

theorem executeSubtask_success {work : MAS.SubTask → Option MAS.Output}
    (hwork : ∀ st, (work st).isSome) (st : MAS.SubTask) :
    (MAS.executeSubtask work st).success = true := by
  rcases hw : work st with _ | o
  · exact absurd (hw ▸ hwork st) (by simp)
  · simp [MAS.executeSubtask, hw]

/-- Dispatching a ready subtask (under an everywhere-successful work
oracle) appends exactly its id to the executed set and one result, and
preserves the loop invariant: in particular the dispatched subtask cannot
be a member of the dependency cycle, because its dependencies are all
executed while the cycle's are never executed. -/
theorem dispatch_inv {work : MAS.SubTask → Option MAS.Output}
    (hwork : ∀ st, (work st).isSome) {subtasks c : List MAS.SubTask}
    (hnodup : (subtasks.map (fun st => st.id)).Nodup)
    (hcycle : MAS.DepCycle subtasks c)
    {ex0 : List String} {i : Nat} {s : MAS.ExecSt}
    (hready : ReadyAt subtasks ex0 i)
    (hid : (subtasks.getD i MAS.defaultSubTask).id ∉ s.executed)
    (hex0 : ∀ x ∈ ex0, x ∈ s.executed)
    (hinv : ExecInv subtasks c s) :
    (MAS.dispatchStep work subtasks i s).executed
        = s.executed ++ [(subtasks.getD i MAS.defaultSubTask).id] ∧
    (MAS.dispatchStep work subtasks i s).results.length = s.results.length + 1 ∧
    ExecInv subtasks c (MAS.dispatchStep work subtasks i s) := by
  have hsucc := executeSubtask_success hwork (subtasks.getD i MAS.defaultSubTask)
  have hstep : MAS.dispatchStep work subtasks i s =
      { statuses := s.statuses.set i .completed
        executed := s.executed ++ [(subtasks.getD i MAS.defaultSubTask).id]
        results := s.results ++ [MAS.executeSubtask work (subtasks.getD i MAS.defaultSubTask)] } := by
    unfold MAS.dispatchStep
    rw [if_pos hsucc, insertExecuted_of_not_mem hid]
  refine ⟨by rw [hstep], by rw [hstep]; simp, ?_⟩
  rw [hstep]
  refine ⟨?_, ?_, ?_, ?_⟩
  · rw [List.nodup_append]
    refine ⟨hinv.nodupEx, List.nodup_singleton _, ?_⟩
    intro x hx hxin
    rw [List.mem_singleton] at hxin
    exact hid (hxin ▸ hx)
  · intro x hx
    rcases List.mem_append.mp hx with hx' | hx'
    · exact hinv.subEx x hx'
    · rw [List.mem_singleton.mp hx']
      exact List.mem_map_of_mem _ (stAt_mem hready.1)
  · intro st' hst'
    rw [List.mem_append, List.mem_singleton]
    rintro (hmem | heq)
    · exact hinv.cycFree st' hst' hmem
    · have hmem : subtasks.getD i MAS.defaultSubTask ∈ subtasks := stAt_mem hready.1
      have hst'mem : st' ∈ subtasks := hcycle.2.1 st' hst'
      have hs : st' = subtasks.getD i MAS.defaultSubTask :=
        List.inj_on_of_nodup_map hnodup hst'mem hmem heq
      obtain ⟨j, hj⟩ := List.get_of_mem hst'
      have hdep := hcycle.2.2 j
      rw [hj, hs] at hdep
      have hnxtmem : c.get ⟨(j.val + 1) % c.length,
          Nat.mod_lt _ (Nat.lt_of_le_of_lt (Nat.zero_le _) j.isLt)⟩ ∈ c :=
        List.get_mem _ _ _
      have hnxtex : (c.get ⟨(j.val + 1) % c.length,
          Nat.mod_lt _ (Nat.lt_of_le_of_lt (Nat.zero_le _) j.isLt)⟩).id ∈ ex0 :=
        hready.2.2 _ hdep
      exact hinv.cycFree _ hnxtmem (hex0 _ hnxtex)
  · simp [hinv.resLen]

/-- Running one whole ready wave preserves the loop invariant and grows
the executed set by exactly the number of dispatched subtasks. -/
theorem runWave_inv {work : MAS.SubTask → Option MAS.Output}
    (hwork : ∀ st, (work st).isSome) {subtasks c : List MAS.SubTask}
    (hnodup : (subtasks.map (fun st => st.id)).Nodup)
    (hcycle : MAS.DepCycle subtasks c) :
    ∀ (l : List Nat) (s : MAS.ExecSt) (ex0 : List String),
      (∀ i ∈ l, ReadyAt subtasks ex0 i) →
      (∀ i ∈ l, (subtasks.getD i MAS.defaultSubTask).id ∉ s.executed) →
      (∀ x ∈ ex0, x ∈ s.executed) →
      l.Nodup →
      ExecInv subtasks c s →
      ExecInv subtasks c (MAS.runWave work subtasks l s) ∧
      (MAS.runWave work subtasks l s).executed.length = s.executed.length + l.length ∧
      (∀ x ∈ s.executed, x ∈ (MAS.runWave work subtasks l s).executed) := by
  intro l
  induction l with
  | nil =>
    intro s ex0 _ _ _ _ hinv
    exact ⟨hinv, by simp [MAS.runWave], fun x hx => by simpa [MAS.runWave] using hx⟩
  | cons i rest ih =>
    intro s ex0 hready hid hex0 hnodupl hinv
    obtain ⟨hex, hres, hinv'⟩ := dispatch_inv hwork hnodup hcycle
      (hready i (by simp)) (hid i (by simp)) hex0 hinv
    have hrw : MAS.runWave work subtasks (i :: rest) s =
        MAS.runWave work subtasks rest (MAS.dispatchStep work subtasks i s) := rfl
    have hid' : ∀ j ∈ rest,
        (subtasks.getD j MAS.defaultSubTask).id ∉
          (MAS.dispatchStep work subtasks i s).executed := by
      intro j hj
      rw [hex, List.mem_append, List.mem_singleton]
      rintro (hmem | heq)
      · exact hid j (List.mem_cons_of_mem _ hj) hmem
      · have hij : j ≠ i := by
          rintro rfl
          exact (List.nodup_cons.mp hnodupl).1 hj
        exact id_index_inj hnodup (hready j (List.mem_cons_of_mem _ hj)).1
          (hready i (by simp)).1 hij heq
    have hex0' : ∀ x ∈ ex0, x ∈ (MAS.dispatchStep work subtasks i s).executed := by
      intro x hx
      rw [hex]
      exact List.mem_append_left _ (hex0 x hx)
    obtain ⟨hinv'', hlen, hmono⟩ := ih (MAS.dispatchStep work subtasks i s) ex0
      (fun j hj => hready j (List.mem_cons_of_mem _ hj)) hid' hex0'
      (List.nodup_cons.mp hnodupl).2 hinv'
    refine ⟨hrw ▸ hinv'', ?_, ?_⟩
    · rw [hrw, hlen, hex]
      simp
      omega
    · intro x hx
      rw [hrw]
      exact hmono x (by rw [hex]; exact List.mem_append_left _ hx)

/-- Under the loop invariant the executed set stays strictly smaller than
the plan: the cycle's first member never enters it. -/
theorem inv_executed_lt {subtasks c : List MAS.SubTask} {s : MAS.ExecSt}
    (hnodup : (subtasks.map (fun st => st.id)).Nodup)
    (hcycle : MAS.DepCycle subtasks c)
    (hinv : ExecInv subtasks c s) :
    s.executed.length < subtasks.length := by
  obtain ⟨hc0, hsub, _⟩ := hcycle
  obtain ⟨st0, hst0⟩ := List.exists_mem_of_ne_nil c hc0
  have hid0 : st0.id ∈ subtasks.map (fun st => st.id) :=
    List.mem_map_of_mem _ (hsub st0 hst0)
  have hsubset : s.executed ⊆ (subtasks.map (fun st => st.id)).erase st0.id := by
    intro x hx
    rw [List.Nodup.mem_erase_iff hnodup]
    refine ⟨?_, hinv.subEx x hx⟩
    rintro rfl
    exact hinv.cycFree st0 hst0 hx
  have hlen := (hinv.nodupEx.subperm hsubset).length_le
  rw [List.length_erase_of_mem hid0, List.length_map] at hlen
  have hpos : 0 < subtasks.length := List.length_pos_of_mem (hsub st0 hst0)
  omega

/-- With enough fuel, the scheduling loop on a plan containing a
dependency cycle always exits through the circular-dependency `break`,
with the invariant intact. -/
theorem execLoop_reaches_circular {work : MAS.SubTask → Option MAS.Output}
    (hwork : ∀ st, (work st).isSome) {subtasks c : List MAS.SubTask}
    (hnodup : (subtasks.map (fun st => st.id)).Nodup)
    (hcycle : MAS.DepCycle subtasks c) :
    ∀ (fuel : Nat) (s : MAS.ExecSt), ExecInv subtasks c s →
      subtasks.length ≤ fuel + s.executed.length →
      ∃ s', MAS.execLoop work subtasks fuel s = (s', .circular) ∧
        ExecInv subtasks c s' := by
  intro fuel
  induction fuel with
  | zero =>
    intro s hinv hfuel
    exact absurd (inv_executed_lt hnodup hcycle hinv) (by omega)
  | succ f ih =>
    intro s hinv hfuel
    have hlt := inv_executed_lt hnodup hcycle hinv
    have hmem : ∀ i ∈ MAS.getReadySubtasks subtasks s.statuses s.executed,
        ReadyAt subtasks s.executed i := fun i hi => ready_mem hi
    by_cases hempty : (MAS.getReadySubtasks subtasks s.statuses s.executed).isEmpty
    · refine ⟨s, ?_, hinv⟩
      simp only [MAS.execLoop, if_pos hlt, if_pos hempty]
    · have hnodupr : (MAS.getReadySubtasks subtasks s.statuses s.executed).Nodup :=
        (List.nodup_range _).filter _
      obtain ⟨hinv', hlen, _⟩ := runWave_inv hwork hnodup hcycle
        (MAS.getReadySubtasks subtasks s.statuses s.executed) s s.executed hmem
        (fun i hi => (hmem i hi).2.1) (fun x hx => hx) hnodupr hinv
      have hrne : (MAS.getReadySubtasks subtasks s.statuses s.executed) ≠ [] := by
        simpa [List.isEmpty_iff] using hempty
      have hrlen : 1 ≤ (MAS.getReadySubtasks subtasks s.statuses s.executed).length :=
        List.length_pos.mpr hrne
      obtain ⟨s', heq, hinv''⟩ := ih
        (MAS.runWave work subtasks (MAS.getReadySubtasks subtasks s.statuses s.executed) s)
        hinv' (by omega)
      refine ⟨s', ?_, hinv''⟩
      simp only [MAS.execLoop, if_pos hlt, if_neg hempty]
      exact heq

/-! ## C1 — a failed SubTask is re-dispatched by the scheduling loop -/

/-- C1 evaluation at the failing input: on a plan with one dependency-free
subtask whose dispatch fails, the first two iterations of the
`ExecutionAgent.process` loop each dispatch that same subtask — the FAILED
subtask is neither in the executed set nor COMPLETED, so
`_get_ready_subtasks` returns it again — producing two ExecutionResults
with `subtask_id = "1"` in one `process` call, and the loop is still
running (in Python it never terminates). -/
theorem C1_failed_subtask_redispatched :
    ((MAS.execProcess failWork c1Plan 2).1.filter
        (fun r => r.subtask_id == some "1")).length = 2 ∧
    (MAS.execProcess failWork c1Plan 2).2 = MAS.ExecExit.fuelOut := by
  decide

/-! ## C2 — executor behavior on a cyclic plan -/

/-- C2 counterexample: on a plan that is one two-subtask dependency cycle
(so the claim's hypothesis holds), `ExecutionAgent.process` halts through
the circular-dependency branch with an **empty** result list — the claim's
"non-empty" part is false. -/
theorem C2_counterexample_cyclic_plan_empty :
    MAS.DepCycle c2Plan.subtasks [c2CycleA, c2CycleB] ∧
    (MAS.execProcess allSuccessWork c2Plan 3).1 = [] ∧
    (MAS.execProcess allSuccessWork c2Plan 3).2 = MAS.ExecExit.circular := by
  refine ⟨⟨by decide, by decide, ?_⟩, by decide, by decide⟩
  intro i
  fin_cases i <;> decide

/-- C2 (amended): on every Plan with distinct subtask ids whose dependency
relation contains a cycle, when every dispatch succeeds,
`ExecutionAgent.process` (run with fuel `|subtasks| + 1`, which suffices)
halts through the circular-dependency branch — logging the diagnostic —
without dispatching every SubTask, and returns a **possibly empty** result
list that is strictly shorter than the number of SubTasks in the Plan. -/
theorem C2_cyclic_plan_partial_results (plan : MAS.Plan)
    (work : MAS.SubTask → Option MAS.Output) (c : List MAS.SubTask)
    (hnodup : (plan.subtasks.map (fun st => st.id)).Nodup)
    (hcycle : MAS.DepCycle plan.subtasks c)
    (hwork : ∀ st, (work st).isSome) :
    (MAS.execProcess work plan (plan.subtasks.length + 1)).2 = MAS.ExecExit.circular ∧
    (MAS.execProcess work plan (plan.subtasks.length + 1)).1.length <
      plan.subtasks.length := by
  have hinv0 : ExecInv plan.subtasks c ⟨plan.subtasks.map (fun st => st.status), [], []⟩ :=
    ⟨List.nodup_nil, by simp, by simp, rfl⟩
  obtain ⟨s', heq, hinv'⟩ := execLoop_reaches_circular hwork hnodup hcycle
    (plan.subtasks.length + 1) ⟨plan.subtasks.map (fun st => st.status), [], []⟩
    hinv0 (by simp)
  have hproc : MAS.execProcess work plan (plan.subtasks.length + 1) =
      (s'.results, .circular) := by
    simp only [MAS.execProcess, heq]
  rw [hproc]
  refine ⟨rfl, ?_⟩
  rw [hinv'.resLen]
  exact inv_executed_lt hnodup hcycle hinv'

/-- C2 witness: the plan with one free subtask plus a two-subtask cycle
has distinct ids, contains a cycle, and an everywhere-successful work
oracle; the theorem yields the circular halt with a strictly partial
result list. -/
theorem C2_cyclic_plan_partial_results_witness :
    ((c2wPlan.subtasks.map (fun st => st.id)).Nodup ∧
      MAS.DepCycle c2wPlan.subtasks [c2wA, c2wB] ∧
      ∀ st, (allSuccessWork st).isSome) ∧
    ((MAS.execProcess allSuccessWork c2wPlan (c2wPlan.subtasks.length + 1)).2 =
        MAS.ExecExit.circular ∧
      (MAS.execProcess allSuccessWork c2wPlan (c2wPlan.subtasks.length + 1)).1.length <
        c2wPlan.subtasks.length) :=
  ⟨⟨by decide, ⟨by decide, by decide, fun i => by fin_cases i <;> decide⟩, fun _ => rfl⟩,
    C2_cyclic_plan_partial_results c2wPlan allSuccessWork [c2wA, c2wB] (by decide)
      ⟨by decide, by decide, fun i => by fin_cases i <;> decide⟩ (fun _ => rfl)⟩

/-! ## C3 — evaluator scores can leave [0,1] -/

/-- C3 evaluation at the failing input: `VerificationAgent.process` on the
single testing result above returns `accuracy_score = 48/15 = 16/5 > 1`,
outside the `[0,1]` range `models.py` documents for
`VerificationResult.accuracy_score`. -/
theorem C3_testing_accuracy_exceeds_one :
    (MAS.verifierProcess [c3TestingResult] stubTask stubEnv).accuracy_score = 16 / 5 ∧
    ¬ (MAS.verifierProcess [c3TestingResult] stubTask stubEnv).accuracy_score ≤ 1 := by
  have h : (MAS.verifierProcess [c3TestingResult] stubTask stubEnv).accuracy_score
      = 16 / 5 := by
    simp [MAS.verifierProcess, MAS.verifyIndividualResult, c3TestingResult,
      MAS.verifyTesting, MAS.calculateOverallAccuracy]
    norm_num
  exact ⟨h, by rw [h]; norm_num⟩

/-! ## C4 — system replanning rate vs. the incremental-mean formula -/

/-- C4 counterexample.  From the (reachable) state "1 WorkItem processed,
all replanned" (`replanning_rate = 1`), processing a second WorkItem with
no replanning leaves `replanning_rate` at `1`, whereas the claimed
incremental-mean update `(rate·n + 0)/(n+1)` yields `1/2`: the code skips
the update entirely when `replanning_attempts = 0`. -/
theorem C4_counterexample_skipped_update :
    (MAS.updateSystemMetrics ⟨1, 1, 10, 1⟩ 10 true 0).replanning_rate ≠
      ((1 : ℚ) * 1 + 0) / (1 + 1) := by
  simp only [MAS.updateSystemMetrics]
  norm_num

/-- C4 (amended): the system replanning rate follows the same
incremental-mean formula as the per-agent metrics (`update_performance`
with observation `true`) only for WorkItems that required at least one
replan; for a WorkItem with no replanning the rate is left unchanged (even
though the processed-task count still increments). -/
theorem C4_replanning_rate_conditional (m : MAS.SystemMetrics) (t t' : ℚ) (s : Bool)
    (r : Nat) :
    (MAS.updateSystemMetrics m t s r).replanning_rate =
      if 0 < r then
        (MAS.updatePerformance ⟨m.tasks_processed, m.replanning_rate, 0⟩ t' true).success_rate
      else m.replanning_rate := by
  simp [MAS.updateSystemMetrics, MAS.updatePerformance]

/-! ## C5 — complexity scoring and strategy selection -/

/-- C5: for every work item, the source's complexity analysis equals the
claim's rule — the sum of the five 0/1 indicators (`complexityScore`),
thresholded at 3 (high) and 1 (medium), else low — and the chosen strategy
is `"hybrid"` iff complexity is high or priority is CRITICAL, `"parallel"`
iff complexity is medium and priority is not CRITICAL, and `"sequential"`
exactly otherwise (complexity low and priority not CRITICAL). -/
theorem C5_complexity_and_strategy (task : MAS.Task) :
    MAS.analyzeComplexity task =
      (if 3 ≤ MAS.complexityScore task then "high"
       else if 1 ≤ MAS.complexityScore task then "medium" else "low") ∧
    (MAS.chooseStrategy (MAS.analyzeComplexity task) task.priority = "hybrid" ↔
      (MAS.analyzeComplexity task = "high" ∨ task.priority = .critical)) ∧
    (MAS.chooseStrategy (MAS.analyzeComplexity task) task.priority = "parallel" ↔
      (MAS.analyzeComplexity task = "medium" ∧ task.priority ≠ .critical)) ∧
    (MAS.chooseStrategy (MAS.analyzeComplexity task) task.priority = "sequential" ↔
      (MAS.analyzeComplexity task = "low" ∧ task.priority ≠ .critical)) := by
  have hA : MAS.analyzeComplexity task =
      (if 3 ≤ MAS.complexityScore task then "high"
       else if 1 ≤ MAS.complexityScore task then "medium" else "low") := by
    by_cases h1 : 5 < task.requirements.length <;>
    by_cases h2 : 100 < MAS.countWords task.description <;>
    by_cases h3 : (task.priority = .high ∨ task.priority = .critical) <;>
    by_cases h4 : (MAS.strMentions (MAS.strLower task.description) "integração") = true <;>
    by_cases h5 : (MAS.strMentions (MAS.strLower task.description) "api") = true <;>
    simp [MAS.analyzeComplexity, MAS.complexityScore, h1, h2, h3, h4, h5]
  refine ⟨hA, ?_, ?_, ?_⟩ <;>
    by_cases hc : task.priority = MAS.TaskPriority.critical <;>
    by_cases hs3 : 3 ≤ MAS.complexityScore task <;>
    by_cases hs1 : 1 ≤ MAS.complexityScore task <;>
    simp [hA, MAS.chooseStrategy, hc, hs3, hs1]

/-! ## C6 — determinism of `replan` -/

/-- C6: two `replan` calls with identical `(item, issues)` inputs (under
any draws for the generated plan id and creation timestamp) produce the
same subtask list, in particular agreeing pointwise in title, order,
dependencies and buffered estimate; the strategy choice is a function of
`issues` alone. -/
theorem C6_replan_deterministic (task : MAS.Task) (issues : List String)
    (e1 e2 : MAS.Env) :
    (MAS.replan task issues e1).subtasks = (MAS.replan task issues e2).subtasks ∧
    List.Forall₂ (fun a b : MAS.SubTask =>
        a.title = b.title ∧ a.order = b.order ∧ a.dependencies = b.dependencies ∧
          a.estimated_time = b.estimated_time)
      (MAS.replan task issues e1).subtasks (MAS.replan task issues e2).subtasks := by
  refine ⟨rfl, ?_⟩
  have h : (MAS.replan task issues e1).subtasks = (MAS.replan task issues e2).subtasks := rfl
  rw [h, List.forall₂_same]
  intro x _
  exact ⟨rfl, rfl, rfl, rfl⟩

/-! ## C7 — uniform 20% buffering in `replan` -/

/-- Every estimate in a strategy template is one of the listed values. -/
theorem decompose_estimate_mem (task : MAS.Task) (s : String) :
    ∀ st ∈ MAS.decomposeTask task s,
      st.estimated_time ∈ ([30, 40, 45, 60, 75, 90, 120] : List Int) := by
  intro st hst
  unfold MAS.decomposeTask at hst
  split_ifs at hst <;>
    simp only [MAS.sequentialPlanning, MAS.parallelPlanning, MAS.hybridPlanning] at hst <;>
    fin_cases hst <;> simp

/-- C7: in a Plan returned by `replan`, each SubTask's `estimated_time` is
exactly 6/5 of the pre-buffer template estimate for the corresponding
template SubTask (stated multiplicatively over ℤ: `5·after = 6·before`;
all template estimates are multiples of 5, so the truncating
`int(t * 1.2)` equals `round(t * 1.2)` equals exactly `6t/5`), and it is
obtained by `bufferTime`. -/
theorem C7_replan_uniform_buffer (task : MAS.Task) (issues : List String)
    (env : MAS.Env) :
    List.Forall₂ (fun (after before : MAS.SubTask) =>
        5 * after.estimated_time = 6 * before.estimated_time ∧
          after.estimated_time = MAS.bufferTime before.estimated_time)
      (MAS.replan task issues env).subtasks
      (MAS.decomposeTask task (MAS.replanStrategy issues)) := by
  have h : (MAS.replan task issues env).subtasks =
      (MAS.decomposeTask task (MAS.replanStrategy issues)).map
        (fun st => { st with estimated_time := MAS.bufferTime st.estimated_time }) := rfl
  rw [h, List.forall₂_map_left_iff, List.forall₂_same]
  intro st hst
  have hv := decompose_estimate_mem task (MAS.replanStrategy issues) st hst
  have hbuf : ∀ t ∈ ([30, 40, 45, 60, 75, 90, 120] : List Int),
      5 * MAS.bufferTime t = 6 * t := by decide
  exact ⟨hbuf st.estimated_time hv, rfl⟩

/-! ## C8 — metrics convergence under identical successful observations -/

theorem repeatUpdate_count (d : ℚ) (n : Nat) :
    (MAS.repeatUpdate d n).tasks_completed = n := by
  induction n with
  | zero => rfl
  | succ k ih => simp [MAS.repeatUpdate, MAS.updatePerformance, ih]

/-- C8: starting from the initial metrics state, after `n ≥ 1` updates all
with `success = true` and the same duration `d`, the running success rate
is exactly 1 and the running average execution time is exactly `d` (the ℚ
model is exact, hence within any floating tolerance). -/
theorem C8_metrics_convergence (d : ℚ) (n : Nat) (h : 1 ≤ n) :
    (MAS.repeatUpdate d n).success_rate = 1 ∧
      (MAS.repeatUpdate d n).average_execution_time = d := by
  induction n with
  | zero => omega
  | succ k ih =>
    have hcount := repeatUpdate_count d k
    rcases Nat.eq_zero_or_pos k with hk | hk
    · subst hk
      norm_num [MAS.repeatUpdate, MAS.initialPerfMetrics, MAS.updatePerformance]
    · obtain ⟨h1, h2⟩ := ih hk
      have hkQ : ((k : ℚ) + 1) ≠ 0 := by positivity
      simp only [MAS.repeatUpdate, MAS.updatePerformance, hcount, h1, h2, if_pos]
      push_cast
      constructor
      · field_simp
      · field_simp
        ring

/-- C8 witness: two successful observations of duration 5. -/
theorem C8_metrics_convergence_witness :
    1 ≤ 2 ∧ ((MAS.repeatUpdate 5 2).success_rate = 1 ∧
      (MAS.repeatUpdate 5 2).average_execution_time = 5) :=
  ⟨by norm_num, C8_metrics_convergence 5 2 (by norm_num)⟩

/-! ## C9 — `process_task` with a zero replanning budget -/

/-- C9: with `max_replanning_attempts = 0`, if the verification of the
first (and only) planning/execution round fails, `process_task` returns
the failure summary built from that last VerificationResult — its issues
and recommendations attached — marks the item FAILED, and never calls
`replan`. -/
theorem C9_zero_attempts_failure (ag : MAS.Agents) (m : MAS.SystemMetrics)
    (task : MAS.Task) (t : ℚ)
    (h : (ag.verify (ag.exec (ag.plan task)) task).passed = false) :
    (MAS.processTask ag m task t 0).outcome =
      some (.failure task.id 0 "verification_failed_after_max_replanning"
        (ag.verify (ag.exec (ag.plan task)) task).quality_score
        (ag.verify (ag.exec (ag.plan task)) task).accuracy_score
        (ag.verify (ag.exec (ag.plan task)) task).issues_found
        (ag.verify (ag.exec (ag.plan task)) task).recommendations
        (ag.exec (ag.plan task)).length
        ((ag.exec (ag.plan task)).filter (·.success)).length
        ((ag.exec (ag.plan task)).filter (fun r => !r.success)).length) ∧
    (MAS.processTask ag m task t 0).taskStatus = .failed ∧
    (MAS.processTask ag m task t 0).replanCalls = 0 := by
  refine ⟨?_, ?_, ?_⟩ <;>
    simp [MAS.processTask, MAS.processTaskGo, MAS.mkFailureOutcome, h]

/-- C9 witness: the stub agents' verifier always fails. -/
theorem C9_zero_attempts_failure_witness :
    (stubAgents.verify (stubAgents.exec (stubAgents.plan stubTask)) stubTask).passed
        = false ∧
    ((MAS.processTask stubAgents MAS.initialSystemMetrics stubTask 0 0).outcome =
      some (.failure stubTask.id 0 "verification_failed_after_max_replanning"
        (stubAgents.verify (stubAgents.exec (stubAgents.plan stubTask)) stubTask).quality_score
        (stubAgents.verify (stubAgents.exec (stubAgents.plan stubTask)) stubTask).accuracy_score
        (stubAgents.verify (stubAgents.exec (stubAgents.plan stubTask)) stubTask).issues_found
        (stubAgents.verify (stubAgents.exec (stubAgents.plan stubTask)) stubTask).recommendations
        (stubAgents.exec (stubAgents.plan stubTask)).length
        ((stubAgents.exec (stubAgents.plan stubTask)).filter (·.success)).length
        ((stubAgents.exec (stubAgents.plan stubTask)).filter (fun r => !r.success)).length) ∧
      (MAS.processTask stubAgents MAS.initialSystemMetrics stubTask 0 0).taskStatus
          = .failed ∧
      (MAS.processTask stubAgents MAS.initialSystemMetrics stubTask 0 0).replanCalls = 0) :=
  ⟨rfl, C9_zero_attempts_failure stubAgents MAS.initialSystemMetrics stubTask 0 rfl⟩

/-! ## C10 — `process_task` with a negative replanning budget -/

/-- C10: with any `max_replanning_attempts < 0`, `process_task` sets the
item IN_PROGRESS, performs no planning, execution or verification, leaves
the system metrics unchanged, and returns `None`. -/
theorem C10_negative_attempts_returns_none (ag : MAS.Agents) (m : MAS.SystemMetrics)
    (task : MAS.Task) (t : ℚ) (maxAttempts : Int) (h : maxAttempts < 0) :
    MAS.processTask ag m task t maxAttempts =
      { outcome := none, taskStatus := .in_progress, metrics := m
        planCalls := 0, replanCalls := 0, execCalls := 0, verifyCalls := 0 } := by
  simp [MAS.processTask, h]

/-- C10 witness at `max_replanning_attempts = -1`. -/
theorem C10_negative_attempts_returns_none_witness :
    (-1 : Int) < 0 ∧
      MAS.processTask stubAgents MAS.initialSystemMetrics stubTask 0 (-1) =
        { outcome := none, taskStatus := .in_progress,
          metrics := MAS.initialSystemMetrics
          planCalls := 0, replanCalls := 0, execCalls := 0, verifyCalls := 0 } :=
  ⟨by norm_num,
    C10_negative_attempts_returns_none stubAgents MAS.initialSystemMetrics stubTask 0 (-1)
      (by norm_num)⟩
